import Mathlib

/-!
Shallow embedding of the `while-basic/generative-agents` repository.

Embedded source files:
* `src/core/typescript/src/agent.ts` — the core `Agent` class and its
  `observe` operation (the Memory Subsystem's `append` for observations).
* `src/unnamed/part_000` — the `InteractionService` (Interaction
  Coordinator): `createInteraction`, `generateConversation`,
  `generateRumor`, `recordMemory`, `getAgentMemories`,
  `getRecentInteractions`, `canInteract`.
* `src/examples/phaser/src/phaserClasses/AgentCharacter.ts` — the
  per-character `checkForInteractions` tick with its interaction cooldown.

Modelling conventions:
* JavaScript promises/exceptions: a fallible operation returns
  `Except e α` (or the oracle returns `Option`); an `.error` result models a
  rejected promise/thrown exception, in which case the caller's state value
  is simply not replaced (TypeScript mutates `this` only after all awaited
  calls have returned on the code paths embedded here, except where the
  embedding explicitly threads the partially mutated state, as in
  `createInteraction`).
* The external LLM collaborator (`AgentEngine`) is an oracle record of
  deterministic partial functions; `none` models a provider failure.
  All agents in the application share a single engine instance
  (`src/unnamed/part_001` constructs one `AgentEngine` for every agent).
* Times (`Date.now()`, timestamps) are integer milliseconds, modelled as
  `Int`.  `agent.ts` stamps `createdAt`/`latestAccess` with two separate
  `new Date()` calls inside one synchronous block; the embedding gives each
  operation a single logical instant `now` used for every stamp it writes.
* JavaScript `number`s used for scores, embeddings, pixel coordinates and
  reliabilities are modelled as `ℚ`.
* The JS `Map` inside `InteractionService` is an insertion-ordered
  association list.
-/

namespace GenAgents

/-! ### Decimal numerals

`agent.ts` builds memory IDs as `` `obs_${count + 1}` ``; the numeric part is
rendered by `Nat.repr`.  To reason about distinctness of the rendered IDs we
prove that the decimal rendering is injective, via an evaluation function on
character lists. -/

/-- Numeric value of a decimal digit character (`'0'` ↦ 0, …, `'9'` ↦ 9). -/
def charVal (c : Char) : Nat := c.toNat - 48

/-- Value of a most-significant-first list of decimal digit characters. -/
def natVal : List Char → Nat
  | [] => 0
  | c :: cs => charVal c * 10 ^ cs.length + natVal cs

theorem charVal_digitChar : ∀ d : Nat, d < 10 → charVal (Nat.digitChar d) = d := by
  decide

theorem natVal_toDigitsCore :
    ∀ (fuel n : Nat) (ds : List Char), n < 10 ^ fuel →
      natVal (Nat.toDigitsCore 10 fuel n ds) = n * 10 ^ ds.length + natVal ds := by
  intro fuel
  induction fuel with
  | zero =>
    intro n ds h
    have hn : n = 0 := Nat.lt_one_iff.mp (by simpa using h)
    subst hn
    simp [Nat.toDigitsCore]
  | succ fuel ih =>
    intro n ds h
    have hmod : n % 10 < 10 := Nat.mod_lt _ (by norm_num)
    by_cases hz : n / 10 = 0
    · have hlt : n < 10 := (Nat.div_eq_zero_iff (by norm_num)).mp hz
      have hmn : n % 10 = n := Nat.mod_eq_of_lt hlt
      simp [Nat.toDigitsCore, hz, natVal, hmn, charVal_digitChar _ hlt]
    · have hdiv : n / 10 < 10 ^ fuel := by
        refine (Nat.div_lt_iff_lt_mul (by norm_num)).mpr ?_
        calc n < 10 ^ (fuel + 1) := h
        _ = 10 ^ fuel * 10 := by ring
      have := ih (n / 10) (Nat.digitChar (n % 10) :: ds) hdiv
      simp only [Nat.toDigitsCore, hz, if_false]
      rw [this]
      simp only [natVal, List.length_cons, charVal_digitChar _ hmod]
      have hn : 10 * (n / 10) + n % 10 = n := Nat.div_add_mod n 10
      calc n / 10 * 10 ^ (ds.length + 1) + (n % 10 * 10 ^ ds.length + natVal ds)
          = (10 * (n / 10) + n % 10) * 10 ^ ds.length + natVal ds := by ring
        _ = n * 10 ^ ds.length + natVal ds := by rw [hn]

theorem natVal_toDigits (n : Nat) : natVal (Nat.toDigits 10 n) = n := by
  have h : n < 10 ^ (n + 1) :=
    lt_of_lt_of_le (Nat.lt_pow_self (by norm_num) n)
      (Nat.pow_le_pow_right (by norm_num) (Nat.le_succ n))
  simpa [Nat.toDigits, natVal] using natVal_toDigitsCore (n + 1) n [] h

/-! ### Core agent data model (`src/core/typescript/src/agent.ts`) -/

structure AgentPersonality where
  background : String
  innateTendency : List String
  learnedTendency : List String
  currentGoal : String
  lifestyle : String
  values : List String
deriving DecidableEq

structure AgentSettings where
  visualRange : Nat
  attention : Nat
  retention : Nat
deriving DecidableEq

/-- The `Action` type of `agent.ts` (current status label + emoji markers). -/
structure ActionState where
  status : String
  emoji : List String
deriving DecidableEq

inductive MemoryType where
  | OBSERVATION
  | REFLECTION
  | PLAN
  | CONVERSATION
deriving DecidableEq

/-- A memory record.  `agent.ts` declares four variants sharing these base
fields; the only constructor exercised by the embedded code is `observe`,
which builds an `Observation` (tag `MemoryType.OBSERVATION`), so the
variant-specific extra fields (`evidence`, `iteration`, …) are not needed
here.  `createdAt`/`latestAccess` are `dateToString` stamps in the source;
they are modelled as the integer instants those strings were rendered from. -/
structure Memory where
  id : String
  createdAt : Int
  description : String
  importance : ℚ
  latestAccess : Int
  embedding : List ℚ
  type : MemoryType
deriving DecidableEq

structure MemoryCount where
  observation : Nat
  reflection : Nat
  plan : Nat
  conversation : Nat
deriving DecidableEq

/-- The external LLM collaborator (`AgentEngine`).  Out of scope of the
repository core; modelled as an oracle of deterministic partial functions
where `none` is a thrown provider error.  `reply message agentId context`
models `engine.reply(message, agent, context)`.  This abstraction cannot
express a transient per-call failure (the same input failing on one call
and succeeding on a later one, as a real provider may); no theorem below
relies on the resulting cross-call determinism, and where the program's
behaviour would differ under per-call failures (the failure branch of
`createInteraction`) the theorems stay silent about the affected state. -/
structure AgentEngine where
  reply : String → String → String → Option String
  getImportanceScore : String → Option ℚ
  getEmbedding : String → Option (List ℚ)

/-- The `Agent` class state.  The `engine` field of the source class is the
shared oracle and is passed explicitly to the operations instead; the
`world` object is opaque to every embedded operation and is omitted. -/
structure Agent where
  id : String
  name : String
  age : Nat
  personality : AgentPersonality
  settings : AgentSettings
  memoryStream : List Memory
  memoryCount : MemoryCount
  latestPlanIteration : Nat
  action : ActionState
  location : List String

/-- Error kind of §7 of the design: the importance/embedding collaborator
failed, so `append`/`observe` aborts.  In the source the engine's exception
simply propagates out of `observe`; this constructor names that failure. -/
inductive ScoringError where
  | ScoringUnavailable
deriving DecidableEq

/-- The memory ID `` `obs_${count + 1}` `` assigned when the observation
counter currently reads `n`. -/
def mkObsId (n : Nat) : String := "obs_" ++ Nat.repr (n + 1)

/-- Numeric component of an `obs_`-prefixed memory ID. -/
def obsNum (s : String) : Nat := natVal (s.data.drop 4)

theorem obsNum_mkObsId (n : Nat) : obsNum (mkObsId n) = n + 1 := by
  show natVal ((("obs_" : String) ++ Nat.repr (n + 1)).data.drop 4) = n + 1
  rw [String.data_append]
  rw [show (4 : Nat) = ("obs_" : String).data.length from rfl, List.drop_left]
  exact natVal_toDigits (n + 1)

theorem mkObsId_injective : Function.Injective mkObsId := by
  intro a b h
  have := congrArg obsNum h
  rw [obsNum_mkObsId, obsNum_mkObsId] at this
  omega

/-- `Agent.observe` (`agent.ts` lines 127–141): request an importance score
and an embedding from the engine (each `await` may throw, modelled by
`none`), then append the new observation and bump the counter.  The two
`new Date()` stamps are taken at the single logical instant `now`. -/
def Agent.observe (a : Agent) (eng : AgentEngine) (description : String)
    (now : Int) : Except ScoringError Agent :=
  match eng.getImportanceScore description with
  | none => .error .ScoringUnavailable
  | some importance =>
    match eng.getEmbedding description with
    | none => .error .ScoringUnavailable
    | some embedding =>
      let memory : Memory :=
        { id := mkObsId a.memoryCount.observation
          createdAt := now
          description := description
          importance := importance
          latestAccess := now
          embedding := embedding
          type := .OBSERVATION }
      .ok { a with
            memoryStream := a.memoryStream ++ [memory]
            memoryCount := { a.memoryCount with
                             observation := a.memoryCount.observation + 1 } }

/-- A sequence of `observe` calls, each at its own instant; the sequence
fails as soon as one call fails (claim C3 quantifies over successful runs). -/
def observeSeq (eng : AgentEngine) (a : Agent) :
    List (String × Int) → Except ScoringError Agent
  | [] => .ok a
  | (d, t) :: rest =>
    match a.observe eng d t with
    | .error e => .error e
    | .ok a' => observeSeq eng a' rest

/-- IDs of the observation-kind memories in the stream, in stream order. -/
def obsIds (a : Agent) : List String :=
  (a.memoryStream.filter fun m => decide (m.type = MemoryType.OBSERVATION)).map
    fun m => m.id

/-! ### Interaction Coordinator (`src/unnamed/part_000`, `InteractionService`) -/

inductive InteractionType where
  | conversation
  | observation
  | rumor
deriving DecidableEq

inductive SMemoryType where
  | direct
  | observed
  | rumor
deriving DecidableEq

/-- The coordinator-level `Memory` interface of the service (distinct from
the core agent's memory records). -/
structure SMemory where
  agentId : String
  content : String
  timestamp : Int
  source : String
  type : SMemoryType
  reliability : ℚ
deriving DecidableEq

structure Interaction where
  id : String
  initiatorId : String
  targetId : String
  type : InteractionType
  content : String
  timestamp : Int
deriving DecidableEq

/-- State of the `InteractionService` singleton.  The JS `Map` is an
insertion-ordered association list from agent ID to that agent's
coordinator-level memory list. -/
structure InteractionService where
  interactions : List Interaction
  memories : List (String × List SMemory)
  proximityThreshold : ℚ
deriving DecidableEq

/-- The exported singleton: empty logs, proximity threshold 100 pixels. -/
def interactionService : InteractionService :=
  { interactions := [], memories := [], proximityThreshold := 100 }

/-- `Map.get` on the association list. -/
def mapGet (m : List (String × List SMemory)) (k : String) :
    Option (List SMemory) :=
  (m.find? fun p => p.1 == k).map fun p => p.2

/-- Combined effect of `recordMemory`'s map manipulation: ensure the key is
present (`if (!has) set([])`) and push onto its list (`get()?.push`). -/
def mapAppend (m : List (String × List SMemory)) (k : String) (v : SMemory) :
    List (String × List SMemory) :=
  match m with
  | [] => [(k, [v])]
  | (k', vs) :: rest =>
    if k' == k then (k', vs ++ [v]) :: rest else (k', vs) :: mapAppend rest k v

/-- `reliability: type === 'direct' ? 1 : type === 'observed' ? 0.8 : 0.5`. -/
def reliabilityOf : SMemoryType → ℚ
  | .direct => 1
  | .observed => 4 / 5
  | .rumor => 1 / 2

/-- `recordMemory(agentId, content, type, source)`; the timestamp is the
instant `now` of the enclosing call (`Date.now()`). -/
def recordMemory (svc : InteractionService) (agentId content : String)
    (type : SMemoryType) (source : String) (now : Int) : InteractionService :=
  { svc with
    memories := mapAppend svc.memories agentId
      { agentId := agentId
        content := content
        timestamp := now
        source := source
        type := type
        reliability := reliabilityOf type } }

/-- `getAgentMemories(agentId)`: `this.memories.get(agentId) || []`. -/
def getAgentMemories (svc : InteractionService) (agentId : String) :
    List SMemory :=
  (mapGet svc.memories agentId).getD []

/-- `response || fallback`: the catch-clause fallback (`none`) and the
falsy-empty-response fallback collapsed into one helper. -/
def fallbackOr (response : Option String) (fallback : String) : String :=
  match response with
  | none => fallback
  | some s => if s = "" then fallback else s

/-- The context template of `generateConversation` (the source's template
literal, apostrophes written `\x27`; indentation whitespace elided). -/
def conversationContext (initiator target : Agent) : String :=
  initiator.name ++ "\x27s background: " ++ initiator.personality.background
    ++ "\n" ++ initiator.name ++ "\x27s current goal: "
    ++ initiator.personality.currentGoal
    ++ "\n" ++ target.name ++ "\x27s background: "
    ++ target.personality.background
    ++ "\n" ++ target.name ++ "\x27s current goal: "
    ++ target.personality.currentGoal

def conversationMessage (target : Agent) : String :=
  "You are having a conversation with " ++ target.name
    ++ ". Generate a very brief, natural conversation (1-2 sentences each) "
    ++ "considering both of your backgrounds and goals. "
    ++ "Keep it concise and casual."

/-- `generateConversation` (part_000 lines 31–48): one `engine.reply` call;
a thrown error or falsy response falls back to the placeholder string. -/
def generateConversation (eng : AgentEngine) (initiator target : Agent) :
    String :=
  fallbackOr
    (eng.reply (conversationMessage target) initiator.id
      (conversationContext initiator target))
    "Failed to generate conversation"

/-- 24 hours in milliseconds (`24 * 60 * 60 * 1000`). -/
def dayMs : Int := 24 * 60 * 60 * 1000

/-- The facts fed into the rumor prompt: contents of the known facts whose
`timestamp > Date.now() - 24h` (part_000 lines 51–54). -/
def rumorFacts (knownFacts : List SMemory) (now : Int) : List String :=
  (knownFacts.filter fun m => decide (now - dayMs < m.timestamp)).map
    fun m => m.content

def rumorContext (agent : Agent) (facts : List String) : String :=
  "Your personality traits: "
    ++ String.intercalate ", " agent.personality.innateTendency
    ++ "\nRecent events and information you know about:\n"
    ++ String.intercalate "\n" facts

def rumorMessage : String :=
  "Share a brief, interesting rumor or piece of gossip (1-2 sentences) "
    ++ "based on what you know."

/-- `generateRumor` (part_000 lines 50–71). -/
def generateRumor (eng : AgentEngine) (agent : Agent)
    (knownFacts : List SMemory) (now : Int) : String :=
  fallbackOr
    (eng.reply rumorMessage agent.id
      (rumorContext agent (rumorFacts knownFacts now)))
    "Failed to generate rumor"

/-- The observation-kind content template:
`` `${initiator.name} observed ${target.name} ${target.personality.currentGoal || 'doing something'}` ``. -/
def observationContent (initiator target : Agent) : String :=
  initiator.name ++ " observed " ++ target.name ++ " "
    ++ (if target.personality.currentGoal = "" then "doing something"
        else target.personality.currentGoal)

/-- Content generation branch of `createInteraction` (the `switch`).  The
second component counts how many `engine.reply` calls the branch makes, so
that "no external text-generation call" is a provable statement. -/
def contentFor (eng : AgentEngine) (svc : InteractionService)
    (initiator target : Agent) (type : InteractionType) (now : Int) :
    String × Nat :=
  match type with
  | .conversation => (generateConversation eng initiator target, 1)
  | .rumor =>
    (generateRumor eng initiator (getAgentMemories svc initiator.id) now, 1)
  | .observation => (observationContent initiator target, 0)

/-- Result of a `createInteraction` call: the service and both agents as
left by the call (the service's pushes and `recordMemory` writes happen
before the two awaited `observe` calls, so they survive a failure), plus
the returned interaction or the propagated scoring exception. -/
structure CIResult where
  svc : InteractionService
  initiator : Agent
  target : Agent
  result : Except ScoringError Interaction

/-- `createInteraction(initiator, target, type)` (part_000 lines 73–107).
`freshId` stands for the `Math.random().toString(36).slice(2, 9)` draw and
`now` for `Date.now()`.  Order of effects, as in the source: generate
content, push the interaction record, record both coordinator memories,
then `await initiator.observe(content)` and `await target.observe(content)`
— a failure of either `observe` rejects the promise *after* the earlier
writes have happened. -/
def createInteraction (eng : AgentEngine) (svc : InteractionService)
    (initiator target : Agent) (type : InteractionType) (freshId : String)
    (now : Int) : CIResult :=
  let content := (contentFor eng svc initiator target type now).1
  let interaction : Interaction :=
    { id := freshId
      initiatorId := initiator.id
      targetId := target.id
      type := type
      content := content
      timestamp := now }
  let svc := { svc with interactions := svc.interactions ++ [interaction] }
  let svc := recordMemory svc initiator.id content .direct target.id now
  let svc := recordMemory svc target.id content
    (if type = .rumor then .rumor else .direct) initiator.id now
  match initiator.observe eng content now with
  | .error e => ⟨svc, initiator, target, .error e⟩
  | .ok initiator' =>
    match target.observe eng content now with
    | .error e => ⟨svc, initiator', target, .error e⟩
    | .ok target' => ⟨svc, initiator', target', .ok interaction⟩

/-- The sort key of `getRecentInteractions`: the JS comparator
`(a, b) => b.timestamp - a.timestamp` orders by descending timestamp. -/
def byTimestampDesc (a b : Interaction) : Bool :=
  decide (b.timestamp ≤ a.timestamp)

/-- `getRecentInteractions(limit = 10)` (part_000 lines 129–133): sort by
timestamp descending (JS `Array.sort` is stable, as is `mergeSort`; the
in-place reordering of the stored array is a permutation and is not
observed by any embedded operation) and take the first `limit`. -/
def getRecentInteractions (svc : InteractionService) (limit : Nat) :
    List Interaction :=
  (svc.interactions.mergeSort byTimestampDesc).take limit

/-- Default value of the `limit` parameter in the source. -/
def defaultRecentLimit : Nat := 10

/-- A sprite position (Phaser `x`/`y` pixel coordinates). -/
structure Pos where
  x : ℚ
  y : ℚ
deriving DecidableEq

/-- Squared Euclidean distance between two positions. -/
def distSq (a b : Pos) : ℚ := (a.x - b.x) ^ 2 + (a.y - b.y) ^ 2

/-- `canInteract(agent1, agent2)` (part_000 lines 135–140).  The source
compares `Math.sqrt(distSq)` against the threshold; both sides being
nonnegative, this is equivalent to comparing `distSq` against the squared
threshold (the equivalence with the `Real.sqrt` formulation is proved in
the claim C4 theorem below), which keeps the predicate computable. -/
def canInteract (svc : InteractionService) (agent1 agent2 : Pos) : Bool :=
  decide (distSq agent1 agent2 ≤ svc.proximityThreshold ^ 2)

/-! ### Character tick (`src/examples/phaser/src/phaserClasses/AgentCharacter.ts`) -/

/-- `minInteractionInterval = 10000` ms ("10 seconds between interactions"). -/
def minInteractionInterval : Int := 10000

/-- The slice of `AgentCharacter` state the interaction logic touches. -/
structure Character where
  agent : Agent
  pos : Pos
  lastInteractionTime : Int

/-- JavaScript `s.split('|')` for the single-character separator `'|'`:
splits the character list at every `'|'`; a string with no separator yields
one part, so destructuring two parts leaves the second `undefined`. -/
def splitBar : List Char → List (List Char)
  | [] => [[]]
  | c :: cs =>
    let rest := splitBar cs
    if c = '|' then [] :: rest
    else
      match rest with
      | [] => [[c]]
      | p :: ps => (c :: p) :: ps

/-- Outcome of one candidate evaluation inside `checkForInteractions`.
`created` is the interaction returned non-none by `createInteraction` (if
the code reached that point); `errored` records that an exception escaped
the tick (a rejected `createInteraction`, or the `TypeError` from calling
`.trim()` on the `undefined` second part of a bar-less content split),
skipping every statement after the throwing one. -/
structure TickResult where
  svc : InteractionService
  self : Character
  other : Character
  created : Option Interaction
  errored : Bool

/-- One iteration of `checkForInteractions` against a single nearby
candidate (AgentCharacter.ts lines 279–317).  `shouldAct` models the
`Math.random() < 0.3` draw and `convDraw` the `Math.random() < 0.7` type
draw (`true` ↦ `'conversation'`, `false` ↦ `'rumor'`); `freshId` is the
interaction-ID draw inside `createInteraction` and `now` the tick's
`Date.now()`.  Control flow, in source order: cooldown gate, proximity
gate, chance gate, `await createInteraction`, split the content on `'|'`,
show both speech bubbles (the second `.trim()` throws if the split has
fewer than two parts), and only then update both cooldown timestamps. -/
def tickOne (eng : AgentEngine) (svc : InteractionService)
    (self other : Character) (shouldAct convDraw : Bool) (freshId : String)
    (now : Int) : TickResult :=
  if now - self.lastInteractionTime < minInteractionInterval then
    ⟨svc, self, other, none, false⟩
  else if ¬ canInteract svc self.pos other.pos then
    ⟨svc, self, other, none, false⟩
  else if ¬ shouldAct then
    ⟨svc, self, other, none, false⟩
  else
    let ty : InteractionType := if convDraw then .conversation else .rumor
    let r := createInteraction eng svc self.agent other.agent ty freshId now
    match r.result with
    | .error _ =>
      ⟨r.svc, { self with agent := r.initiator },
        { other with agent := r.target }, none, true⟩
    | .ok interaction =>
      match splitBar interaction.content.data with
      | _ :: _ :: _ =>
        ⟨r.svc, { self with agent := r.initiator, lastInteractionTime := now },
          { other with agent := r.target, lastInteractionTime := now },
          some interaction, false⟩
      | _ =>
        ⟨r.svc, { self with agent := r.initiator },
          { other with agent := r.target }, some interaction, true⟩

/-! ### Helper lemmas about `observe` -/

theorem observe_error_iff (a : Agent) (eng : AgentEngine) (d : String)
    (now : Int) :
    a.observe eng d now = .error .ScoringUnavailable ↔
      eng.getImportanceScore d = none ∨ eng.getEmbedding d = none := by
  unfold Agent.observe
  rcases hs : eng.getImportanceScore d with _ | imp
  · simp
  · rcases he : eng.getEmbedding d with _ | emb <;> simp

theorem observe_ok_elim {a a' : Agent} {eng : AgentEngine} {d : String}
    {now : Int} (h : a.observe eng d now = .ok a') :
    ∃ imp emb, eng.getImportanceScore d = some imp ∧
      eng.getEmbedding d = some emb ∧
      a' = { a with
             memoryStream := a.memoryStream ++
               [{ id := mkObsId a.memoryCount.observation
                  createdAt := now
                  description := d
                  importance := imp
                  latestAccess := now
                  embedding := emb
                  type := .OBSERVATION }]
             memoryCount := { a.memoryCount with
                              observation := a.memoryCount.observation + 1 } } := by
  unfold Agent.observe at h
  rcases hs : eng.getImportanceScore d with _ | imp <;> rw [hs] at h
  · exact absurd h (by simp)
  · rcases he : eng.getEmbedding d with _ | emb <;> rw [he] at h
    · exact absurd h (by simp)
    · simp only [Except.ok.injEq] at h
      exact ⟨imp, emb, rfl, rfl, h.symm⟩

/-- Invariant: the observation IDs in the stream are exactly
`obs_1 … obs_count` in order. -/
def GoodIds (a : Agent) : Prop :=
  obsIds a = (List.range a.memoryCount.observation).map mkObsId

theorem obsIds_observe {a a' : Agent} {eng : AgentEngine} {d : String}
    {now : Int} (h : a.observe eng d now = .ok a') :
    obsIds a' = obsIds a ++ [mkObsId a.memoryCount.observation] ∧
    a'.memoryCount.observation = a.memoryCount.observation + 1 := by
  obtain ⟨imp, emb, _, _, ha'⟩ := observe_ok_elim h
  subst ha'
  unfold obsIds
  simp [List.filter_append]

theorem goodIds_observe {a a' : Agent} {eng : AgentEngine} {d : String}
    {now : Int} (h : a.observe eng d now = .ok a') (hg : GoodIds a) :
    GoodIds a' := by
  obtain ⟨h1, h2⟩ := obsIds_observe h
  unfold GoodIds at hg ⊢
  rw [h1, hg, h2, List.range_succ, List.map_append]
  simp

theorem observeSeq_good (eng : AgentEngine) :
    ∀ (calls : List (String × Int)) (a a' : Agent),
      observeSeq eng a calls = .ok a' → GoodIds a →
      GoodIds a' ∧
        a'.memoryCount.observation =
          a.memoryCount.observation + calls.length := by
  intro calls
  induction calls with
  | nil =>
    intro a a' h hg
    simp only [observeSeq, Except.ok.injEq] at h
    subst h
    exact ⟨hg, by simp⟩
  | cons dt rest ih =>
    intro a a' h hg
    rcases dt with ⟨d, t⟩
    simp only [observeSeq] at h
    rcases hob : a.observe eng d t with e | a1 <;> rw [hob] at h
    · exact absurd h (by simp)
    · obtain ⟨hg', hc'⟩ := ih a1 a' h (goodIds_observe hob hg)
      refine ⟨hg', ?_⟩
      rw [hc', (obsIds_observe hob).2]
      simp only [List.length_cons]
      omega

/-! ### Fixtures used by witnesses and counterexamples -/

def samplePersonality : AgentPersonality :=
  { background := "grew up in a small town"
    innateTendency := ["curious"]
    learnedTendency := ["patient"]
    currentGoal := "paint a mural"
    lifestyle := "early riser"
    values := ["honesty"] }

def sampleAgent (id name : String) : Agent :=
  { id := id
    name := name
    age := 30
    personality := samplePersonality
    settings := { visualRange := 8, attention := 8, retention := 8 }
    memoryStream := []
    memoryCount := { observation := 0, reflection := 0, plan := 0,
                     conversation := 0 }
    latestPlanIteration := 1
    action := { status := "sleeping", emoji := ["zz"] }
    location := [] }

/-- Oracle whose every call fails (provider down). -/
def failingEngine : AgentEngine :=
  { reply := fun _ _ _ => none
    getImportanceScore := fun _ => none
    getEmbedding := fun _ => none }

/-- Oracle whose every call succeeds; generated text contains a `'|'`. -/
def okEngine : AgentEngine :=
  { reply := fun _ _ _ => some "hi|there"
    getImportanceScore := fun _ => some 5
    getEmbedding := fun _ => some [] }

/-- Oracle whose text generation fails but whose scoring works. -/
def noReplyEngine : AgentEngine :=
  { reply := fun _ _ _ => none
    getImportanceScore := fun _ => some 5
    getEmbedding := fun _ => some [] }

/-! ### Claims C2, C7, C3 -/

/-- C2: if the external collaborator cannot produce the importance score or
the embedding, `observe` fails with `ScoringUnavailable` (in the source the
engine's exception propagates out of the first failing `await`, before the
memory is constructed, the stream is pushed, or the counter is bumped).  In
this embedding an `.error` result carries no successor state: the agent
value is left exactly as it was, so no partial memory exists. -/
theorem observe_scoring_failure_aborts (a : Agent) (eng : AgentEngine)
    (d : String) (now : Int)
    (h : eng.getImportanceScore d = none ∨ eng.getEmbedding d = none) :
    a.observe eng d now = .error .ScoringUnavailable :=
  (observe_error_iff a eng d now).mpr h

theorem observe_scoring_failure_aborts_witness :
    (failingEngine.getImportanceScore "saw a fire" = none ∨
      failingEngine.getEmbedding "saw a fire" = none) ∧
    (sampleAgent "a1" "Ada").observe failingEngine "saw a fire" 0 =
      .error .ScoringUnavailable :=
  ⟨Or.inl rfl,
    observe_scoring_failure_aborts (sampleAgent "a1" "Ada") failingEngine
      "saw a fire" 0 (Or.inl rfl)⟩

/-- C7: a successful `observe` appends exactly one memory at the end of the
stream, stamped `createdAt = latestAccess = now` and carrying the observed
description, increments the observation counter by one, and leaves the
previously stored memories (the unchanged prefix) and the other kinds'
counters untouched. -/
theorem observe_appends_one (a a' : Agent) (eng : AgentEngine) (d : String)
    (now : Int) (h : a.observe eng d now = .ok a') :
    ∃ m, a'.memoryStream = a.memoryStream ++ [m] ∧
      m.createdAt = now ∧ m.latestAccess = now ∧ m.description = d ∧
      m.type = .OBSERVATION ∧
      a'.memoryCount.observation = a.memoryCount.observation + 1 ∧
      a'.memoryCount.reflection = a.memoryCount.reflection ∧
      a'.memoryCount.plan = a.memoryCount.plan ∧
      a'.memoryCount.conversation = a.memoryCount.conversation := by
  obtain ⟨imp, emb, _, _, ha'⟩ := observe_ok_elim h
  subst ha'
  exact ⟨_, rfl, rfl, rfl, rfl, rfl, rfl, rfl, rfl, rfl⟩

/-- Result of the concrete `observe` run used to witness C7. -/
def observedSample : Agent :=
  (((sampleAgent "a1" "Ada").observe okEngine "saw a fire" 7).toOption).getD
    (sampleAgent "a1" "Ada")

theorem observe_appends_one_witness :
    ∃ m, observedSample.memoryStream =
        (sampleAgent "a1" "Ada").memoryStream ++ [m] ∧
      m.createdAt = 7 ∧ m.latestAccess = 7 ∧ m.description = "saw a fire" ∧
      m.type = .OBSERVATION ∧
      observedSample.memoryCount.observation =
        (sampleAgent "a1" "Ada").memoryCount.observation + 1 ∧
      observedSample.memoryCount.reflection =
        (sampleAgent "a1" "Ada").memoryCount.reflection ∧
      observedSample.memoryCount.plan =
        (sampleAgent "a1" "Ada").memoryCount.plan ∧
      observedSample.memoryCount.conversation =
        (sampleAgent "a1" "Ada").memoryCount.conversation :=
  observe_appends_one (sampleAgent "a1" "Ada") observedSample okEngine
    "saw a fire" 7 rfl

/-- C3: over any successful sequence of `observe` calls starting from a
stream whose observation IDs are the counter-generated ones (in particular
the constructor state, where both sides are empty), the per-kind counter
grows by exactly one per call, the IDs remain exactly the counter-generated
sequence, their numeric components are strictly increasing along the
stream, no ID is ever reused, and each single successful call assigns the
ID determined by the current counter value and bumps that counter by one. -/
theorem observe_ids_strictly_increasing (eng : AgentEngine) (a a' : Agent)
    (calls : List (String × Int))
    (hg : obsIds a = (List.range a.memoryCount.observation).map mkObsId)
    (h : observeSeq eng a calls = .ok a') :
    a'.memoryCount.observation = a.memoryCount.observation + calls.length ∧
    obsIds a' = (List.range a'.memoryCount.observation).map mkObsId ∧
    List.Pairwise (fun s t => obsNum s < obsNum t) (obsIds a') ∧
    (obsIds a').Nodup ∧
    (∀ (b b' : Agent) (d : String) (t : Int), b.observe eng d t = .ok b' →
      b'.memoryCount.observation = b.memoryCount.observation + 1 ∧
      ∃ m, b'.memoryStream = b.memoryStream ++ [m] ∧
        m.id = mkObsId b.memoryCount.observation) := by
  obtain ⟨hg', hc⟩ := observeSeq_good eng calls a a' h hg
  refine ⟨hc, hg', ?_, ?_, ?_⟩
  · rw [hg']
    exact (List.pairwise_lt_range _).map mkObsId
      (fun i j hij => by rw [obsNum_mkObsId, obsNum_mkObsId]; omega)
  · rw [hg']
    exact (List.nodup_range _).map mkObsId_injective
  · intro b b' d t hob
    obtain ⟨imp, emb, _, _, hb'⟩ := observe_ok_elim hob
    subst hb'
    exact ⟨rfl, _, rfl, rfl⟩

/-- Result of the concrete two-call `observeSeq` run used to witness C3. -/
def c3Sample : Agent :=
  ((observeSeq okEngine (sampleAgent "a1" "Ada")
    [("saw rain", 1), ("heard music", 2)]).toOption).getD
    (sampleAgent "a1" "Ada")

theorem observe_ids_strictly_increasing_witness :
    c3Sample.memoryCount.observation =
      (sampleAgent "a1" "Ada").memoryCount.observation + 2 ∧
    obsIds c3Sample =
      (List.range c3Sample.memoryCount.observation).map mkObsId ∧
    List.Pairwise (fun s t => obsNum s < obsNum t) (obsIds c3Sample) ∧
    (obsIds c3Sample).Nodup ∧
    (∀ (b b' : Agent) (d : String) (t : Int),
      b.observe okEngine d t = .ok b' →
      b'.memoryCount.observation = b.memoryCount.observation + 1 ∧
      ∃ m, b'.memoryStream = b.memoryStream ++ [m] ∧
        m.id = mkObsId b.memoryCount.observation) :=
  observe_ids_strictly_increasing okEngine (sampleAgent "a1" "Ada") c3Sample
    [("saw rain", 1), ("heard music", 2)] rfl rfl

/-! ### Helper lemmas about `createInteraction` -/

/-- Whatever happens afterwards, `createInteraction` has already pushed the
interaction record before the two `observe` awaits run: the coordinator's
interaction list always grows by exactly that record. -/
theorem createInteraction_pushes (eng : AgentEngine)
    (svc : InteractionService) (i t : Agent) (ty : InteractionType)
    (fid : String) (now : Int) :
    (createInteraction eng svc i t ty fid now).svc.interactions =
      svc.interactions ++
        [{ id := fid, initiatorId := i.id, targetId := t.id, type := ty,
           content := (contentFor eng svc i t ty now).1,
           timestamp := now }] := by
  unfold createInteraction
  rcases h1 : i.observe eng (contentFor eng svc i t ty now).1 now with e | i'
  · simp [h1, recordMemory]
  · rcases h2 : t.observe eng (contentFor eng svc i t ty now).1 now with e | t' <;>
      simp [h1, h2, recordMemory]

theorem observe_ok_of {a : Agent} {eng : AgentEngine} {d : String}
    {now : Int} {q : ℚ} {v : List ℚ}
    (hs : eng.getImportanceScore d = some q)
    (he : eng.getEmbedding d = some v) :
    ∃ a', a.observe eng d now = .ok a' := by
  unfold Agent.observe
  rw [hs, he]
  exact ⟨_, rfl⟩

/-- If both `observe` awaits succeed, `createInteraction` returns the
pushed interaction record. -/
theorem createInteraction_ok_of {eng : AgentEngine}
    {svc : InteractionService} {i t : Agent} {ty : InteractionType}
    {fid : String} {now : Int}
    (hobs : ∀ a : Agent,
      ∃ a', a.observe eng (contentFor eng svc i t ty now).1 now = .ok a') :
    (createInteraction eng svc i t ty fid now).result =
      .ok { id := fid, initiatorId := i.id, targetId := t.id, type := ty,
            content := (contentFor eng svc i t ty now).1,
            timestamp := now } := by
  obtain ⟨i', h1⟩ := hobs i
  obtain ⟨t', h2⟩ := hobs t
  simp [createInteraction, h1, h2]

/-! ### Claim C1 (amended), with counterexample to the original claim -/

/-- C1 (amended): when `createInteraction` returns a non-none interaction,
exactly one new memory was appended to the initiator's stream and one to
the target's, both describing the interaction's content.  The failure
branch discards nothing: on *every* path, success or rejection, the
coordinator's final state is the fully-written one — the interaction
record pushed and both coordinator-level `recordMemory` writes applied —
because those writes all precede the two `observe` awaits and no path
rolls them back.  (Nothing is claimed about the two agents' streams on the
failure path: the source has no rollback there either, so a target-side
scoring failure after a successful initiator append would leave the
streams partially applied — the `InconsistentInteraction` hazard of §7 —
but the deterministic oracle of this embedding cannot exhibit that
schedule, so the theorem stays silent about it.) -/
theorem createInteraction_memory_effects (eng : AgentEngine)
    (svc : InteractionService) (i t : Agent) (ty : InteractionType)
    (fid : String) (now : Int) :
    (createInteraction eng svc i t ty fid now).svc =
      recordMemory
        (recordMemory
          { svc with interactions := svc.interactions ++
              [{ id := fid, initiatorId := i.id, targetId := t.id,
                 type := ty, content := (contentFor eng svc i t ty now).1,
                 timestamp := now }] }
          i.id (contentFor eng svc i t ty now).1 .direct t.id now)
        t.id (contentFor eng svc i t ty now).1
        (if ty = .rumor then .rumor else .direct) i.id now ∧
    (∀ j, (createInteraction eng svc i t ty fid now).result = .ok j →
      (∃ m1, (createInteraction eng svc i t ty fid now).initiator.memoryStream =
          i.memoryStream ++ [m1] ∧ m1.description = j.content) ∧
      (∃ m2, (createInteraction eng svc i t ty fid now).target.memoryStream =
          t.memoryStream ++ [m2] ∧ m2.description = j.content)) := by
  constructor
  · rcases h1 : i.observe eng (contentFor eng svc i t ty now).1 now with e | i'
    · simp [createInteraction, h1]
    · rcases h2 : t.observe eng (contentFor eng svc i t ty now).1 now with e | t' <;>
        simp [createInteraction, h1, h2]
  · intro j hj
    rcases h1 : i.observe eng (contentFor eng svc i t ty now).1 now with e | i'
    · simp [createInteraction, h1] at hj
    · rcases h2 : t.observe eng (contentFor eng svc i t ty now).1 now with e | t'
      · simp [createInteraction, h1, h2] at hj
      · simp only [createInteraction, h1, h2, Except.ok.injEq] at hj
        subst hj
        simp only [createInteraction, h1, h2]
        obtain ⟨imp1, emb1, _, _, hi'⟩ := observe_ok_elim h1
        obtain ⟨imp2, emb2, _, _, ht'⟩ := observe_ok_elim h2
        subst hi'; subst ht'
        exact ⟨⟨_, rfl, rfl⟩, ⟨_, rfl, rfl⟩⟩

/-- Refutation of C1 as stated: with a failing scoring oracle the appends
fail and `createInteraction` rejects, yet nothing is discarded — the
coordinator's interaction list grew from empty to one record and its
memory map holds both `recordMemory` entries. -/
theorem createInteraction_no_discard_counterexample :
    (createInteraction failingEngine interactionService
        (sampleAgent "a1" "Ada") (sampleAgent "b1" "Bo") .observation "i1"
        0).result = .error .ScoringUnavailable ∧
    (createInteraction failingEngine interactionService
        (sampleAgent "a1" "Ada") (sampleAgent "b1" "Bo") .observation "i1"
        0).svc.interactions.length = 1 ∧
    ((createInteraction failingEngine interactionService
        (sampleAgent "a1" "Ada") (sampleAgent "b1" "Bo") .observation "i1"
        0).svc.memories.map fun p => (p.1, p.2.length)) =
      [("a1", 1), ("b1", 1)] ∧
    interactionService.interactions.length = 0 ∧
    interactionService.memories.length = 0 :=
  ⟨rfl, rfl, rfl, rfl, rfl⟩

/-- Concrete successful run used to witness the amended C1. -/
def c1Run : CIResult :=
  createInteraction okEngine interactionService (sampleAgent "a1" "Ada")
    (sampleAgent "b1" "Bo") .conversation "i1" 3

theorem createInteraction_memory_effects_witness :
    (∃ m1, c1Run.initiator.memoryStream =
        (sampleAgent "a1" "Ada").memoryStream ++ [m1] ∧
      m1.description = "hi|there") ∧
    (∃ m2, c1Run.target.memoryStream =
        (sampleAgent "b1" "Bo").memoryStream ++ [m2] ∧
      m2.description = "hi|there") :=
  (createInteraction_memory_effects okEngine interactionService
      (sampleAgent "a1" "Ada") (sampleAgent "b1" "Bo") .conversation "i1"
      3).2
    { id := "i1", initiatorId := "a1", targetId := "b1",
      type := .conversation, content := "hi|there", timestamp := 3 }
    rfl

/-! ### Claim C6 -/

/-- C6: when the text-generation collaborator fails (throws, or returns an
empty response), the conversation/rumor content falls back to the generic
placeholder, the failure does not propagate out of `createInteraction`, and
the call still returns a valid (degraded) interaction — provided the
separate scoring/embedding oracle works, so the two `observe` appends
succeed. -/
theorem generation_failure_falls_back (svc : InteractionService)
    (i t : Agent) (fid : String) (now : Int) (eng : AgentEngine)
    (hr : ∀ m aid c, eng.reply m aid c = none)
    (hsc : ∀ d, ∃ q, eng.getImportanceScore d = some q)
    (hem : ∀ d, ∃ v, eng.getEmbedding d = some v) :
    (∃ j, (createInteraction eng svc i t .conversation fid now).result =
        .ok j ∧ j.content = "Failed to generate conversation") ∧
    (∃ j, (createInteraction eng svc i t .rumor fid now).result = .ok j ∧
      j.content = "Failed to generate rumor") := by
  have hc : (contentFor eng svc i t .conversation now).1 =
      "Failed to generate conversation" := by
    simp [contentFor, generateConversation, fallbackOr, hr]
  have hrm : (contentFor eng svc i t .rumor now).1 =
      "Failed to generate rumor" := by
    simp [contentFor, generateRumor, fallbackOr, hr]
  constructor
  · refine ⟨_, createInteraction_ok_of (fun a => ?_), hc⟩
    obtain ⟨q, hq⟩ := hsc (contentFor eng svc i t .conversation now).1
    obtain ⟨v, hv⟩ := hem (contentFor eng svc i t .conversation now).1
    exact observe_ok_of hq hv
  · refine ⟨_, createInteraction_ok_of (fun a => ?_), hrm⟩
    obtain ⟨q, hq⟩ := hsc (contentFor eng svc i t .rumor now).1
    obtain ⟨v, hv⟩ := hem (contentFor eng svc i t .rumor now).1
    exact observe_ok_of hq hv

theorem generation_failure_falls_back_witness :
    (∃ j, (createInteraction noReplyEngine interactionService
        (sampleAgent "a1" "Ada") (sampleAgent "b1" "Bo") .conversation "i1"
        4).result = .ok j ∧ j.content = "Failed to generate conversation") ∧
    (∃ j, (createInteraction noReplyEngine interactionService
        (sampleAgent "a1" "Ada") (sampleAgent "b1" "Bo") .rumor "i1"
        4).result = .ok j ∧ j.content = "Failed to generate rumor") :=
  generation_failure_falls_back interactionService (sampleAgent "a1" "Ada")
    (sampleAgent "b1" "Bo") "i1" 4 noReplyEngine (fun _ _ _ => rfl)
    (fun _ => ⟨5, rfl⟩) (fun _ => ⟨[], rfl⟩)

/-! ### Claim C8 -/

/-- C8: the facts behind a rumor are exactly the initiator's recorded
coordinator-level (cross-agent) memories whose timestamp is within the
last 24 hours before the call — a memory enters the filtered fact list iff
it is recorded for the initiator and `now - 24h < timestamp` — and the
rumor branch of `createInteraction` hands the text-generation collaborator
precisely the contents of that filtered list (older memories never reach
the prompt). -/
theorem rumor_uses_recent_facts (eng : AgentEngine)
    (svc : InteractionService) (i t : Agent) (now : Int) :
    (∀ m : SMemory,
      m ∈ (getAgentMemories svc i.id).filter
          (fun m => decide (now - dayMs < m.timestamp)) ↔
        m ∈ getAgentMemories svc i.id ∧ now - dayMs < m.timestamp) ∧
    rumorFacts (getAgentMemories svc i.id) now =
      ((getAgentMemories svc i.id).filter
        (fun m => decide (now - dayMs < m.timestamp))).map
        (fun m => m.content) ∧
    (contentFor eng svc i t .rumor now).1 =
      fallbackOr
        (eng.reply rumorMessage i.id
          (rumorContext i (rumorFacts (getAgentMemories svc i.id) now)))
        "Failed to generate rumor" := by
  refine ⟨?_, rfl, rfl⟩
  intro m
  simp [List.mem_filter]

/-! ### Claim C9 -/

/-- C9: for kind `observation` the content is the locally synthesized
template built from the two agents' names and the target's current goal
(with the `'doing something'` fallback for an empty goal); no
`engine.reply` call is made (the instrumented call count is 0 and the
content does not depend on the engine at all), and the recorded interaction
carries exactly that template. -/
theorem observation_content_local (eng eng' : AgentEngine)
    (svc svc' : InteractionService) (i t : Agent) (fid : String)
    (now now' : Int) :
    contentFor eng svc i t .observation now =
      (i.name ++ " observed " ++ t.name ++ " "
        ++ (if t.personality.currentGoal = "" then "doing something"
            else t.personality.currentGoal), 0) ∧
    contentFor eng svc i t .observation now =
      contentFor eng' svc' i t .observation now' ∧
    (createInteraction eng svc i t .observation fid now).svc.interactions =
      svc.interactions ++
        [{ id := fid, initiatorId := i.id, targetId := t.id,
           type := .observation, content := observationContent i t,
           timestamp := now }] :=
  ⟨rfl, rfl, createInteraction_pushes eng svc i t .observation fid now⟩

/-! ### Claim C4 -/

/-- C4: `canInteract` is a pure function of the two positions, true exactly
when the Euclidean distance (the real square root of the squared
coordinate differences, as computed by the source) is at most the fixed
threshold 100; in particular it is true at 80 units and false at 150. -/
theorem canInteract_euclidean :
    (∀ a b : Pos, canInteract interactionService a b = true ↔
      Real.sqrt (((a.x : ℝ) - (b.x : ℝ)) ^ 2 + ((a.y : ℝ) - (b.y : ℝ)) ^ 2)
        ≤ 100) ∧
    canInteract interactionService ⟨0, 0⟩ ⟨80, 0⟩ = true ∧
    canInteract interactionService ⟨0, 0⟩ ⟨150, 0⟩ = false := by
  refine ⟨?_, ?_, ?_⟩
  · intro a b
    have hcast : ((a.x : ℝ) - (b.x : ℝ)) ^ 2 + ((a.y : ℝ) - (b.y : ℝ)) ^ 2 =
        ((distSq a b : ℚ) : ℝ) := by
      push_cast [distSq]
      ring
    rw [show canInteract interactionService a b =
        decide (distSq a b ≤ (100 : ℚ) ^ 2) from rfl,
      decide_eq_true_iff, hcast, Real.sqrt_le_iff]
    constructor
    · intro h
      refine ⟨by norm_num, ?_⟩
      calc ((distSq a b : ℚ) : ℝ) ≤ (((100 : ℚ) ^ 2 : ℚ) : ℝ) := by
            exact_mod_cast h
        _ = (100 : ℝ) ^ 2 := by norm_num
    · rintro ⟨-, h⟩
      have h' : ((distSq a b : ℚ) : ℝ) ≤ (((100 : ℚ) ^ 2 : ℚ) : ℝ) := by
        calc ((distSq a b : ℚ) : ℝ) ≤ (100 : ℝ) ^ 2 := h
          _ = (((100 : ℚ) ^ 2 : ℚ) : ℝ) := by norm_num
      exact_mod_cast h'
  · rw [show canInteract interactionService ⟨0, 0⟩ ⟨80, 0⟩ =
        decide (distSq ⟨0, 0⟩ ⟨80, 0⟩ ≤ (100 : ℚ) ^ 2) from rfl,
      decide_eq_true_iff]
    norm_num [distSq]
  · rw [show canInteract interactionService ⟨0, 0⟩ ⟨150, 0⟩ =
        decide (distSq ⟨0, 0⟩ ⟨150, 0⟩ ≤ (100 : ℚ) ^ 2) from rfl,
      decide_eq_false_iff_not]
    norm_num [distSq]

/-! ### Claim C10 -/

/-- C10: `getRecentInteractions limit` returns at most `limit` interactions
in non-increasing timestamp order (most recent first; the source default
for `limit` is `defaultRecentLimit = 10`), and `getAgentMemories` returns
the empty list — rather than failing — for an agent ID absent from the
memory map. -/
theorem recent_interactions_sorted (svc : InteractionService) (limit : Nat)
    (aid : String) (h : mapGet svc.memories aid = none) :
    (getRecentInteractions svc limit).length ≤ limit ∧
    List.Pairwise (fun a b : Interaction => b.timestamp ≤ a.timestamp)
      (getRecentInteractions svc limit) ∧
    getAgentMemories svc aid = [] := by
  refine ⟨List.length_take_le _ _, ?_, by simp [getAgentMemories, h]⟩
  have htrans : ∀ a b c : Interaction, byTimestampDesc a b = true →
      byTimestampDesc b c = true → byTimestampDesc a c = true := by
    intro a b c hab hbc
    simp only [byTimestampDesc, decide_eq_true_iff] at hab hbc ⊢
    omega
  have htotal : ∀ a b : Interaction,
      (byTimestampDesc a b || byTimestampDesc b a) = true := by
    intro a b
    simp only [byTimestampDesc, Bool.or_eq_true, decide_eq_true_iff]
    omega
  have hs := List.sorted_mergeSort htrans htotal svc.interactions
  have hst := hs.sublist (List.take_sublist limit _)
  exact hst.imp fun hab => by simpa [byTimestampDesc] using hab

/-- Concrete service (two out-of-order interactions) witnessing C10. -/
def c10Sample : InteractionService :=
  { interactions :=
      [{ id := "i1", initiatorId := "a1", targetId := "b1",
         type := .conversation, content := "x", timestamp := 5 },
       { id := "i2", initiatorId := "b1", targetId := "a1",
         type := .rumor, content := "y", timestamp := 9 }]
    memories := []
    proximityThreshold := 100 }

theorem recent_interactions_sorted_witness :
    (getRecentInteractions c10Sample 1).length ≤ 1 ∧
    List.Pairwise (fun a b : Interaction => b.timestamp ≤ a.timestamp)
      (getRecentInteractions c10Sample 1) ∧
    getAgentMemories c10Sample "zed" = [] :=
  recent_interactions_sorted c10Sample 1 "zed" rfl

/-! ### Claim C5 (amended), with counterexample to the original claim -/

theorem canInteract_self (svc : InteractionService)
    (h : svc.proximityThreshold = 100) (p : Pos) :
    canInteract svc p p = true := by
  unfold canInteract
  rw [decide_eq_true_iff, h, distSq]
  norm_num

/-- Once the three gates pass, `tickOne` is the createInteraction-and-split
tail; this equation lets concrete runs be evaluated without reducing the
rational `canInteract` test. -/
theorem tickOne_proceeds (eng : AgentEngine) (svc : InteractionService)
    (self other : Character) (convDraw : Bool) (fid : String) (now : Int)
    (h1 : ¬ now - self.lastInteractionTime < minInteractionInterval)
    (h2 : canInteract svc self.pos other.pos = true) :
    tickOne eng svc self other true convDraw fid now =
      (let r := createInteraction eng svc self.agent other.agent
        (if convDraw then InteractionType.conversation
          else InteractionType.rumor) fid now
      match r.result with
      | .error _ =>
        ⟨r.svc, { self with agent := r.initiator },
          { other with agent := r.target }, none, true⟩
      | .ok interaction =>
        match splitBar interaction.content.data with
        | _ :: _ :: _ =>
          ⟨r.svc,
            { self with agent := r.initiator, lastInteractionTime := now },
            { other with agent := r.target, lastInteractionTime := now },
            some interaction, false⟩
        | _ =>
          ⟨r.svc, { self with agent := r.initiator },
            { other with agent := r.target }, some interaction, true⟩) := by
  simp [tickOne, h1, h2]

/-- C5 (amended): the cooldown gate does make a tick with a fresh-enough
`lastInteractionTime` a no-op, and whenever a tick changes the cooldown
timestamp it was set to `now` on both characters after a non-none
`createInteraction` whose content split on `'|'` into at least two parts.
The original per-window at-most-once claim fails: an interaction whose
content has no `'|'` (e.g. the generation-failure placeholder) throws a
`TypeError` in the destructured speech-bubble call *before* the cooldown
update, so the same ordered pair can interact again inside the window —
see the counterexample. -/
theorem cooldown_update_only_after_success (eng : AgentEngine)
    (svc : InteractionService) (self other : Character)
    (shouldAct convDraw : Bool) (fid : String) (now : Int) :
    (now - self.lastInteractionTime < minInteractionInterval →
      tickOne eng svc self other shouldAct convDraw fid now =
        ⟨svc, self, other, none, false⟩) ∧
    ((tickOne eng svc self other shouldAct convDraw fid
          now).self.lastInteractionTime = self.lastInteractionTime ∨
      ∃ i, (tickOne eng svc self other shouldAct convDraw fid
          now).created = some i ∧
        (tickOne eng svc self other shouldAct convDraw fid
          now).self.lastInteractionTime = now ∧
        (tickOne eng svc self other shouldAct convDraw fid
          now).other.lastInteractionTime = now ∧
        2 ≤ (splitBar i.content.data).length ∧
        (tickOne eng svc self other shouldAct convDraw fid
          now).errored = false) := by
  constructor
  · intro h
    simp only [tickOne, if_pos h]
  · by_cases h1 : now - self.lastInteractionTime < minInteractionInterval
    · left
      simp [tickOne, h1]
    · by_cases hc : canInteract svc self.pos other.pos = true
      · cases shouldAct with
        | false => left; simp [tickOne, h1, hc]
        | true =>
          rcases hres : (createInteraction eng svc self.agent other.agent
              (if convDraw then InteractionType.conversation
                else InteractionType.rumor) fid now).result with e | ix
          · left
            simp [tickOne, h1, hc, hres]
          · rcases hsp : splitBar ix.content.data with _ | ⟨p, rest⟩
            · left
              simp [tickOne, h1, hc, hres, hsp]
            · rcases rest with _ | ⟨q, rest'⟩
              · left
                simp [tickOne, h1, hc, hres, hsp]
              · right
                refine ⟨ix, ?_, ?_, ?_, ?_, ?_⟩
                · simp [tickOne, h1, hc, hres, hsp]
                · simp [tickOne, h1, hc, hres, hsp]
                · simp [tickOne, h1, hc, hres, hsp]
                · rw [hsp]
                  simp
                · simp [tickOne, h1, hc, hres, hsp]
      · left
        simp [tickOne, h1, hc]

/-- Characters used in the C5 witness and counterexample: co-located,
cooldown clocks at 0. -/
def chA : Character :=
  { agent := sampleAgent "a1" "Ada", pos := ⟨0, 0⟩, lastInteractionTime := 0 }

def chB : Character :=
  { agent := sampleAgent "b1" "Bo", pos := ⟨0, 0⟩, lastInteractionTime := 0 }

theorem cooldown_update_only_after_success_witness :
    tickOne okEngine interactionService chA chB true true "i1" 5 =
      ⟨interactionService, chA, chB, none, false⟩ :=
  (cooldown_update_only_after_success okEngine interactionService chA chB
    true true "i1" 5).1 (by decide)

/-- First failing-content tick of the counterexample run. -/
def cexC1 : CIResult :=
  createInteraction noReplyEngine interactionService (sampleAgent "a1" "Ada")
    (sampleAgent "b1" "Bo") .conversation "i1" 20000

def cexSelf1 : Character := { chA with agent := cexC1.initiator }

def cexOther1 : Character := { chB with agent := cexC1.target }

/-- Second tick of the counterexample run, 5 ms after the first. -/
def cexC2 : CIResult :=
  createInteraction noReplyEngine cexC1.svc cexSelf1.agent cexOther1.agent
    .conversation "i2" 20005

/-- Refutation of C5 as stated: with text generation down, the fallback
content `"Failed to generate conversation"` has no `'|'`, so both ticks
end in the thrown-`TypeError` branch, the cooldown timestamps are never
updated, and the *same ordered pair* (a1, b1) gets two interactions
recorded 5 ms apart — far inside the 10000 ms window. -/
theorem cooldown_window_counterexample :
    tickOne noReplyEngine interactionService chA chB true true "i1" 20000 =
      ⟨cexC1.svc, cexSelf1, cexOther1,
        some { id := "i1", initiatorId := "a1", targetId := "b1",
               type := .conversation,
               content := "Failed to generate conversation",
               timestamp := 20000 }, true⟩ ∧
    tickOne noReplyEngine cexC1.svc cexSelf1 cexOther1 true true "i2"
        20005 =
      ⟨cexC2.svc, { cexSelf1 with agent := cexC2.initiator },
        { cexOther1 with agent := cexC2.target },
        some { id := "i2", initiatorId := "a1", targetId := "b1",
               type := .conversation,
               content := "Failed to generate conversation",
               timestamp := 20005 }, true⟩ ∧
    (cexC2.svc.interactions.map fun i =>
        (i.initiatorId, i.targetId, i.timestamp)) =
      [("a1", "b1", 20000), ("a1", "b1", 20005)] ∧
    (20005 : Int) - 20000 < minInteractionInterval := by
  have hci1 : canInteract interactionService chA.pos chB.pos = true :=
    canInteract_self interactionService rfl ⟨0, 0⟩
  have hci2 : canInteract cexC1.svc cexSelf1.pos cexOther1.pos = true :=
    canInteract_self cexC1.svc rfl ⟨0, 0⟩
  refine ⟨?_, ?_, rfl, by decide⟩
  · rw [tickOne_proceeds noReplyEngine interactionService chA chB true "i1"
      20000 (by decide) hci1]
    rfl
  · rw [tickOne_proceeds noReplyEngine cexC1.svc cexSelf1 cexOther1 true
      "i2" 20005 (by decide) hci2]
    rfl

end GenAgents
